import Mathlib

/-!
Shallow embedding of `src/weight_and_balance.rs` from michaelvlaar/airplane-rs.

The Rust source computes over `f64`; here every scalar is embedded as an exact
rational `ℚ`, so each theorem states the exact-arithmetic content of the claim.
Constructor names follow the Rust enum variants, method names the Rust methods.
-/

namespace AirplaneRs

/-- Density of Avgas in kilograms per liter (source constant 0.72). -/
def AVGAS_FUEL_DENSITY_KG_LITER : ℚ := 72 / 100

/-- Density of Mogas in kilograms per liter (source constant 0.74). -/
def MOGAS_FUEL_DENSITY_KG_LITER : ℚ := 74 / 100

/-- Liters per US gallon (source constant 378541.0 / 100000.0). -/
def LITERS_IN_GALLON : ℚ := 378541 / 100000

/-- `LeverArm` enum: distance of a load station from the datum. -/
inductive LeverArm where
  | Meter (m : ℚ)
deriving DecidableEq, Repr

def LeverArm.meter : LeverArm → ℚ
  | .Meter m => m

/-- `Volume` enum: a fuel volume tagged with its unit. -/
inductive Volume where
  | Liter (v : ℚ)
  | Gallon (v : ℚ)
deriving DecidableEq, Repr

def Volume.to_liter : Volume → ℚ
  | .Liter v => v
  | .Gallon v => v * LITERS_IN_GALLON

def Volume.to_gallon : Volume → ℚ
  | .Liter v => v / LITERS_IN_GALLON
  | .Gallon v => v

/-- `Mass` enum: a raw mass in kilos, or a fuel volume of a given type. -/
inductive Mass where
  | Kilo (kg : ℚ)
  | Avgas (v : Volume)
  | Mogas (v : Volume)
deriving DecidableEq, Repr

def Mass.kilo : Mass → ℚ
  | .Kilo kg => kg
  | .Avgas (.Liter l) => l * AVGAS_FUEL_DENSITY_KG_LITER
  | .Avgas (.Gallon g) => g * LITERS_IN_GALLON * AVGAS_FUEL_DENSITY_KG_LITER
  | .Mogas (.Liter l) => l * MOGAS_FUEL_DENSITY_KG_LITER
  | .Mogas (.Gallon g) => g * LITERS_IN_GALLON * MOGAS_FUEL_DENSITY_KG_LITER

def Mass.to_avgas (m : Mass) : Mass :=
  .Avgas (.Liter (m.kilo / AVGAS_FUEL_DENSITY_KG_LITER))

def Mass.to_mogas (m : Mass) : Mass :=
  .Mogas (.Liter (m.kilo / MOGAS_FUEL_DENSITY_KG_LITER))

/-- Whether a mass carries a fuel tag (Avgas or Mogas). -/
def Mass.isFuel : Mass → Bool
  | .Kilo _ => false
  | .Avgas _ => true
  | .Mogas _ => true

/-- `Moment` struct: a named load at a station. -/
structure Moment where
  name : String
  lever_arm : LeverArm
  mass : Mass
deriving DecidableEq, Repr

/-- `MassMoment` enum: mass times arm, in kilogram-meters. -/
inductive MassMoment where
  | KgM (kgm : ℚ)
deriving DecidableEq, Repr

def MassMoment.kgm : MassMoment → ℚ
  | .KgM x => x

/-- `Moment::total`: the moment's contribution in kilogram-meters. -/
def Moment.total (m : Moment) : MassMoment :=
  .KgM (m.mass.kilo * m.lever_arm.meter)

/-- `CenterOfGravity` enum; positive numbers are aft of datum. -/
inductive CenterOfGravity where
  | Meter (m : ℚ)
  | Millimeter (mm : ℚ)
deriving DecidableEq, Repr

def CenterOfGravity.meter : CenterOfGravity → ℚ
  | .Meter m => m
  | .Millimeter mm => mm / 1000

/-- `Limits` struct: the certified envelope descriptor. -/
structure Limits where
  minimum_weight : Mass
  mtow : Mass
  forward_cg_limit : CenterOfGravity
  rearward_cg_limit : CenterOfGravity
deriving DecidableEq, Repr

/-- `FuelType` from `crate::types` (used only as a two-variant selector). -/
inductive FuelType where
  | Mogas
  | Avgas
deriving DecidableEq, Repr

/-- `VolumeType` from `crate::types` (the caller-requested storage unit). -/
inductive VolumeType where
  | Liter
  | Gallon
deriving DecidableEq, Repr

/-- `Airplane` struct: the aggregate of moments, limits and trip fuel. -/
structure Airplane where
  callsign : String
  moments : List Moment
  limits : Limits
  fuel_consumption_trip : Volume
deriving DecidableEq, Repr

def Airplane.total_mass (a : Airplane) : Mass :=
  .Kilo ((a.moments.map fun m => m.mass.kilo).sum)

def Airplane.total_mass_moment (a : Airplane) : MassMoment :=
  .KgM ((a.moments.map fun m => m.total.kgm).sum)

def Airplane.center_of_gravity (a : Airplane) : CenterOfGravity :=
  .Meter (a.total_mass_moment.kgm / a.total_mass.kilo)

def Airplane.within_limits (a : Airplane) : Bool :=
  let cg := a.center_of_gravity.meter
  decide (a.total_mass.kilo ≤ a.limits.mtow.kilo) &&
    decide (cg ≤ a.limits.rearward_cg_limit.meter) &&
    decide (cg ≥ a.limits.forward_cg_limit.meter)

/-- The binding CG bound the solver picks in `add_max_fuel_within_limits`:
the rearward limit when the candidate arm is at least 0.5 m, else forward. -/
def Airplane.solver_cg_limit (a : Airplane) (arm : LeverArm) : ℚ :=
  if arm.meter ≥ 1/2 then a.limits.rearward_cg_limit.meter
  else a.limits.forward_cg_limit.meter

/-- `kg_max_mass` of `add_max_fuel_within_limits`: the unconstrained solve. -/
def Airplane.solver_kg_max_mass (a : Airplane) (arm : LeverArm) : ℚ :=
  let cg_limit := a.solver_cg_limit arm
  (cg_limit * a.total_mass.kilo - a.total_mass_moment.kgm) /
    (arm.meter - cg_limit)

/-- The first `max_mass` of `add_max_fuel_within_limits`: the solve clamped
against MTOW. -/
def Airplane.solver_clamped_mass (a : Airplane) (arm : LeverArm) : ℚ :=
  if a.solver_kg_max_mass arm + a.total_mass.kilo ≥ a.limits.mtow.kilo then
    a.limits.mtow.kilo - a.total_mass.kilo
  else
    a.solver_kg_max_mass arm

/-- The `limited_max_mass` match block of `add_max_fuel_within_limits`:
clamp a fuel mass's volume to an optional cap and store it in the
caller-requested unit. -/
def limit_fuel_volume (max_mass : Mass) (volume : VolumeType)
    (max_volume : Option Volume) : Mass :=
  match max_volume with
  | some mv =>
    match max_mass with
    | .Avgas v =>
      let volume_liter := if v.to_liter > mv.to_liter then mv.to_liter else v.to_liter
      match volume with
      | .Liter => .Avgas (.Liter volume_liter)
      | .Gallon => .Avgas (.Gallon ((Volume.Liter volume_liter).to_gallon))
    | .Mogas v =>
      let volume_liter := if v.to_liter > mv.to_liter then mv.to_liter else v.to_liter
      match volume with
      | .Liter => .Mogas (.Liter volume_liter)
      | .Gallon => .Mogas (.Gallon ((Volume.Liter volume_liter).to_gallon))
    | m => m
  | none => max_mass

/-- `Airplane::add_max_fuel_within_limits`: solve for the largest fuel load at
`arm` within the CG bound and MTOW, convert it to a fuel volume, apply the
optional cap, and append the resulting moment. The Rust method mutates
`self` and returns a reference to the appended moment; here the updated
airplane is returned, the appended moment being the last of its list. -/
def Airplane.add_max_fuel_within_limits (a : Airplane) (name : String)
    (arm : LeverArm) (fuel : FuelType) (volume : VolumeType)
    (max_volume : Option Volume) : Airplane :=
  let max_mass := Mass.Kilo (a.solver_clamped_mass arm)
  let max_mass :=
    match fuel with
    | .Mogas => max_mass.to_mogas
    | .Avgas => max_mass.to_avgas
  let limited_max_mass := limit_fuel_volume max_mass volume max_volume
  { a with moments := a.moments ++ [Moment.mk name arm limited_max_mass] }

/-- The moment that `add_max_fuel_within_limits` appends, as one value. -/
def Airplane.solver_moment (a : Airplane) (name : String) (arm : LeverArm)
    (fuel : FuelType) (volume : VolumeType) (max_volume : Option Volume) : Moment :=
  Moment.mk name arm (limit_fuel_volume
    (match fuel with
      | FuelType.Mogas => (Mass.Kilo (a.solver_clamped_mass arm)).to_mogas
      | FuelType.Avgas => (Mass.Kilo (a.solver_clamped_mass arm)).to_avgas)
    volume max_volume)

/-- `Airplane::total_mass_moment_landing`. The Rust method panics when the
moment list is empty or the last mass is not fuel; that fatal exit is
embedded as `none`. -/
def Airplane.total_mass_moment_landing (a : Airplane) : Option MassMoment :=
  match a.moments.getLast? with
  | none => none
  | some fuel_moment =>
    let mass_moment_without_fuel := a.total_mass_moment.kgm - fuel_moment.total.kgm
    match fuel_moment.mass with
    | .Mogas v =>
      let mass := Mass.Mogas (.Liter (v.to_liter - a.fuel_consumption_trip.to_liter))
      let fm := Moment.mk "Fuel" fuel_moment.lever_arm mass
      some (.KgM (mass_moment_without_fuel + fm.total.kgm))
    | .Avgas v =>
      let mass := Mass.Avgas (.Liter (v.to_liter - a.fuel_consumption_trip.to_liter))
      let fm := Moment.mk "Fuel" fuel_moment.lever_arm mass
      some (.KgM (mass_moment_without_fuel + fm.total.kgm))
    | .Kilo _ => none

/-- `Airplane::total_mass_landing`, with the panic embedded as `none`. -/
def Airplane.total_mass_landing (a : Airplane) : Option Mass :=
  match a.moments.getLast? with
  | none => none
  | some fuel_moment =>
    let mass_without_fuel := a.total_mass.kilo - fuel_moment.mass.kilo
    match fuel_moment.mass with
    | .Mogas v =>
      let mass := Mass.Mogas (.Liter (v.to_liter - a.fuel_consumption_trip.to_liter))
      some (.Kilo (mass_without_fuel + mass.kilo))
    | .Avgas v =>
      let mass := Mass.Avgas (.Liter (v.to_liter - a.fuel_consumption_trip.to_liter))
      some (.Kilo (mass_without_fuel + mass.kilo))
    | .Kilo _ => none

/-- `Airplane::add_moment`: unconditional append. -/
def Airplane.add_moment (a : Airplane) (m : Moment) : Airplane :=
  { a with moments := a.moments ++ [m] }

/-- The density constant attached to a fuel type. -/
def FuelType.density : FuelType → ℚ
  | .Avgas => AVGAS_FUEL_DENSITY_KG_LITER
  | .Mogas => MOGAS_FUEL_DENSITY_KG_LITER

/-- Wrap a volume as a mass of the given fuel type. -/
def FuelType.mass (f : FuelType) (v : Volume) : Mass :=
  match f with
  | .Avgas => .Avgas v
  | .Mogas => .Mogas v

/-- The volume stored inside a fuel-tagged mass. -/
def Mass.fuelVolume : Mass → Option Volume
  | .Kilo _ => none
  | .Avgas v => some v
  | .Mogas v => some v

/-- Spec-side recomputation target for the landing totals: the airplane whose
last moment's fuel volume has `fuel_consumption_trip` (in liters) subtracted,
every other moment unchanged; `none` when the list is empty or the last mass
is not fuel-typed. -/
def Airplane.spec_landing_adjusted (a : Airplane) : Option Airplane :=
  match a.moments.getLast? with
  | none => none
  | some lm =>
    match lm.mass with
    | .Mogas v =>
      some { a with moments := a.moments.dropLast ++
        [Moment.mk lm.name lm.lever_arm
          (.Mogas (.Liter (v.to_liter - a.fuel_consumption_trip.to_liter)))] }
    | .Avgas v =>
      some { a with moments := a.moments.dropLast ++
        [Moment.mk lm.name lm.lever_arm
          (.Avgas (.Liter (v.to_liter - a.fuel_consumption_trip.to_liter)))] }
    | .Kilo _ => none

/-! ### Concrete inputs used by witnesses and counterexamples -/

/-- A small airplane inside its envelope: one 10 kg load at 2 m, MTOW 40 kg,
CG envelope 1 m .. 3 m. -/
def W1 : Airplane :=
  ⟨"W1", [⟨"front", .Meter 2, .Kilo 10⟩], ⟨.Kilo 5, .Kilo 40, .Meter 1, .Meter 3⟩, .Liter 0⟩

/-- Like `W1` but with a minimum weight above the 10 kg total. -/
def W9 : Airplane :=
  ⟨"W9", [⟨"front", .Meter 2, .Kilo 10⟩], ⟨.Kilo 50, .Kilo 40, .Meter 1, .Meter 3⟩, .Liter 0⟩

/-- An airplane whose single load sits aft of the rearward CG limit. -/
def W10 : Airplane :=
  ⟨"W10", [⟨"aft", .Meter 4, .Kilo 10⟩], ⟨.Kilo 0, .Kilo 40, .Meter 1, .Meter 3⟩, .Liter 0⟩

/-- An airplane whose last moment is an Avgas load, with 17 L trip fuel. -/
def W5 : Airplane :=
  ⟨"W5", [⟨"base", .Meter 1, .Kilo 100⟩, ⟨"fuel", .Meter 2, .Avgas (.Liter 60)⟩],
   ⟨.Kilo 0, .Kilo 1000, .Meter 0, .Meter 3⟩, .Liter 17⟩

/-- `W5` with the trip fuel already subtracted from its last moment. -/
def W5adj : Airplane :=
  ⟨"W5", [⟨"base", .Meter 1, .Kilo 100⟩, ⟨"fuel", .Meter 2, .Avgas (.Liter (60 - 17))⟩],
   ⟨.Kilo 0, .Kilo 1000, .Meter 0, .Meter 3⟩, .Liter 17⟩

/-- Two moments used by the permutation witness. -/
def M8a : Moment := ⟨"a", .Meter 1, .Kilo 2⟩

def M8b : Moment := ⟨"b", .Meter 3, .Kilo 4⟩

/-- An airplane holding `M8a` then `M8b`. -/
def W8 : Airplane := ⟨"W8", [M8a, M8b], ⟨.Kilo 0, .Kilo 40, .Meter 1, .Meter 3⟩, .Liter 0⟩

/-! ### Helper lemmas -/

theorem avgas_density_pos : 0 < AVGAS_FUEL_DENSITY_KG_LITER := by
  norm_num [AVGAS_FUEL_DENSITY_KG_LITER]

theorem mogas_density_pos : 0 < MOGAS_FUEL_DENSITY_KG_LITER := by
  norm_num [MOGAS_FUEL_DENSITY_KG_LITER]

theorem liters_in_gallon_ne_zero : LITERS_IN_GALLON ≠ 0 := by
  norm_num [LITERS_IN_GALLON]

theorem density_pos (f : FuelType) : 0 < f.density := by
  cases f <;> simp [FuelType.density] <;>
    [exact mogas_density_pos; exact avgas_density_pos]

theorem Mass.kilo_Kilo (x : ℚ) : (Mass.Kilo x).kilo = x := rfl

theorem Volume.to_liter_Liter (x : ℚ) : (Volume.Liter x).to_liter = x := rfl

/-- `Mass.kilo` of an Avgas mass is its volume in liters times the density. -/
theorem Mass.kilo_Avgas (v : Volume) :
    (Mass.Avgas v).kilo = v.to_liter * AVGAS_FUEL_DENSITY_KG_LITER := by
  cases v <;> simp [Mass.kilo, Volume.to_liter]

/-- `Mass.kilo` of a Mogas mass is its volume in liters times the density. -/
theorem Mass.kilo_Mogas (v : Volume) :
    (Mass.Mogas v).kilo = v.to_liter * MOGAS_FUEL_DENSITY_KG_LITER := by
  cases v <;> simp [Mass.kilo, Volume.to_liter]

/-- `to_avgas` re-interprets a mass as fuel without changing its kilograms. -/
theorem Mass.kilo_to_avgas (m : Mass) : m.to_avgas.kilo = m.kilo := by
  simp [Mass.to_avgas, Mass.kilo]
  exact div_mul_cancel₀ m.kilo (ne_of_gt avgas_density_pos)

/-- `to_mogas` re-interprets a mass as fuel without changing its kilograms. -/
theorem Mass.kilo_to_mogas (m : Mass) : m.to_mogas.kilo = m.kilo := by
  simp [Mass.to_mogas, Mass.kilo]
  exact div_mul_cancel₀ m.kilo (ne_of_gt mogas_density_pos)

/-- The optional volume cap can only lower a mass, never raise it. -/
theorem limit_fuel_volume_kilo_le (m : Mass) (vt : VolumeType) (mv : Option Volume) :
    (limit_fuel_volume m vt mv).kilo ≤ m.kilo := by
  cases mv with
  | none => simp [limit_fuel_volume]
  | some cap =>
    cases m with
    | Kilo k => simp [limit_fuel_volume]
    | Avgas v =>
      cases vt <;>
        simp only [limit_fuel_volume, Mass.kilo_Avgas, Volume.to_liter, Volume.to_gallon,
          div_mul_cancel₀ _ liters_in_gallon_ne_zero] <;>
      split_ifs with h <;>
        [exact mul_le_mul_of_nonneg_right h.le avgas_density_pos.le; exact le_refl _;
         exact mul_le_mul_of_nonneg_right h.le avgas_density_pos.le; exact le_refl _]
    | Mogas v =>
      cases vt <;>
        simp only [limit_fuel_volume, Mass.kilo_Mogas, Volume.to_liter, Volume.to_gallon,
          div_mul_cancel₀ _ liters_in_gallon_ne_zero] <;>
      split_ifs with h <;>
        [exact mul_le_mul_of_nonneg_right h.le mogas_density_pos.le; exact le_refl _;
         exact mul_le_mul_of_nonneg_right h.le mogas_density_pos.le; exact le_refl _]

/-- The MTOW clamp guarantees the clamped mass fits under MTOW. -/
theorem solver_clamped_add_le (a : Airplane) (arm : LeverArm) :
    a.solver_clamped_mass arm + a.total_mass.kilo ≤ a.limits.mtow.kilo := by
  unfold Airplane.solver_clamped_mass
  split_ifs with h <;> linarith

/-- The fuel conversion step of the solver preserves kilograms. -/
theorem fuel_step_kilo (fuel : FuelType) (m : Mass) :
    (match fuel with
      | FuelType.Mogas => m.to_mogas
      | FuelType.Avgas => m.to_avgas).kilo = m.kilo := by
  cases fuel
  · exact Mass.kilo_to_mogas m
  · exact Mass.kilo_to_avgas m

/-- Appending one moment adds its kilograms to the total mass. -/
theorem total_mass_append (a : Airplane) (m : Moment) :
    ({ a with moments := a.moments ++ [m] } : Airplane).total_mass.kilo =
      a.total_mass.kilo + m.mass.kilo := by
  simp [Airplane.total_mass, Mass.kilo]

/-- `add_max_fuel_within_limits` appends exactly `solver_moment`. -/
theorem add_max_fuel_eq (a : Airplane) (name : String) (arm : LeverArm)
    (fuel : FuelType) (volume : VolumeType) (max_volume : Option Volume) :
    a.add_max_fuel_within_limits name arm fuel volume max_volume =
      { a with moments := a.moments ++
          [a.solver_moment name arm fuel volume max_volume] } := by
  cases fuel <;> rfl

/-- With no volume cap, the appended moment's kilograms are the clamped solve. -/
theorem solver_moment_mass_kilo (a : Airplane) (name : String) (arm : LeverArm)
    (fuel : FuelType) (volume : VolumeType) :
    (a.solver_moment name arm fuel volume none).mass.kilo =
      a.solver_clamped_mass arm := by
  cases fuel <;>
    simp only [Airplane.solver_moment, limit_fuel_volume, Mass.kilo_to_mogas,
      Mass.kilo_to_avgas] <;> rfl

/-- The appended moment's kilograms never exceed the clamped solve. -/
theorem solver_moment_mass_kilo_le (a : Airplane) (name : String) (arm : LeverArm)
    (fuel : FuelType) (volume : VolumeType) (max_volume : Option Volume) :
    (a.solver_moment name arm fuel volume max_volume).mass.kilo ≤
      a.solver_clamped_mass arm := by
  cases fuel <;> simp only [Airplane.solver_moment] <;>
    exact le_of_le_of_eq (limit_fuel_volume_kilo_le _ _ _)
      (by simp only [Mass.kilo_to_mogas, Mass.kilo_to_avgas]; rfl)

/-- The volume cap keeps an Avgas mass Avgas and cannot raise its liters. -/
theorem limit_fuel_volume_avgas (v : Volume) (vt : VolumeType) (mv : Option Volume) :
    ∃ w, limit_fuel_volume (.Avgas v) vt mv = .Avgas w ∧ w.to_liter ≤ v.to_liter := by
  cases mv with
  | none => exact ⟨v, rfl, le_refl _⟩
  | some cap =>
    cases vt with
    | Liter =>
      refine ⟨_, rfl, ?_⟩
      simp only [limit_fuel_volume, Volume.to_liter]
      split_ifs with h
      · exact h.le
      · exact le_refl _
    | Gallon =>
      refine ⟨_, rfl, ?_⟩
      simp only [limit_fuel_volume, Volume.to_liter, Volume.to_gallon,
        div_mul_cancel₀ _ liters_in_gallon_ne_zero]
      split_ifs with h
      · exact h.le
      · exact le_refl _

/-- The volume cap keeps a Mogas mass Mogas and cannot raise its liters. -/
theorem limit_fuel_volume_mogas (v : Volume) (vt : VolumeType) (mv : Option Volume) :
    ∃ w, limit_fuel_volume (.Mogas v) vt mv = .Mogas w ∧ w.to_liter ≤ v.to_liter := by
  cases mv with
  | none => exact ⟨v, rfl, le_refl _⟩
  | some cap =>
    cases vt with
    | Liter =>
      refine ⟨_, rfl, ?_⟩
      simp only [limit_fuel_volume, Volume.to_liter]
      split_ifs with h
      · exact h.le
      · exact le_refl _
    | Gallon =>
      refine ⟨_, rfl, ?_⟩
      simp only [limit_fuel_volume, Volume.to_liter, Volume.to_gallon,
        div_mul_cancel₀ _ liters_in_gallon_ne_zero]
      split_ifs with h
      · exact h.le
      · exact le_refl _

/-! ### Claim theorems -/

/-- C1: `add_max_fuel_within_limits` first picks the binding CG bound (the
rearward limit when the lever arm is at least 0.5 m, else the forward limit),
solves `m = (cg_limit * T - M) / (arm - cg_limit)` over the current totals,
clamps `m` to `mtow - T` when `T + m ≥ mtow`, and the appended moment's mass
in kilograms equals that clamped value (no volume cap applied). -/
theorem C1_solver_formula (a : Airplane) (name : String) (arm : LeverArm)
    (fuel : FuelType) (volume : VolumeType) :
    ((a.add_max_fuel_within_limits name arm fuel volume none).moments.getLast?).map
        (fun mo => mo.mass.kilo) =
      some (
        let T := a.total_mass.kilo
        let M := a.total_mass_moment.kgm
        let cg_limit :=
          if arm.meter ≥ 1/2 then a.limits.rearward_cg_limit.meter
          else a.limits.forward_cg_limit.meter
        let m := (cg_limit * T - M) / (arm.meter - cg_limit)
        if T + m ≥ a.limits.mtow.kilo then a.limits.mtow.kilo - T else m) := by
  rw [add_max_fuel_eq]
  simp only [List.getLast?_concat, Option.map_some', solver_moment_mass_kilo]
  unfold Airplane.solver_clamped_mass Airplane.solver_kg_max_mass
    Airplane.solver_cg_limit
  dsimp only
  split_ifs <;> first | rfl | linarith

/-- C2: after `add_max_fuel_within_limits` appends its moment, the total mass
never exceeds MTOW, for every name, arm, fuel type, volume unit and optional
volume cap. -/
theorem C2_mtow_respected (a : Airplane) (name : String) (arm : LeverArm)
    (fuel : FuelType) (volume : VolumeType) (max_volume : Option Volume) :
    (a.add_max_fuel_within_limits name arm fuel volume max_volume).total_mass.kilo ≤
      a.limits.mtow.kilo := by
  have h1 := solver_moment_mass_kilo_le a name arm fuel volume max_volume
  have h3 := solver_clamped_add_le a arm
  rw [add_max_fuel_eq, total_mass_append]
  linarith

/-- C4: for an airplane of nonzero total mass, `within_limits` is true iff the
total mass is at most MTOW and the CG `total_mass_moment / total_mass` lies
between the forward and rearward limits, all bounds inclusive. -/
theorem C4_within_limits_iff (a : Airplane) (h : a.total_mass.kilo ≠ 0) :
    a.within_limits = true ↔
      (a.total_mass.kilo ≤ a.limits.mtow.kilo ∧
       a.limits.forward_cg_limit.meter ≤
         a.total_mass_moment.kgm / a.total_mass.kilo ∧
       a.total_mass_moment.kgm / a.total_mass.kilo ≤
         a.limits.rearward_cg_limit.meter) := by
  simp only [Airplane.within_limits, Airplane.center_of_gravity,
    CenterOfGravity.meter, Bool.and_eq_true, decide_eq_true_eq, ge_iff_le]
  tauto

/-- C3: the claim says the solver guards the division by zero at
`arm == cg_limit` and rejects the operation. The code has no such guard: at
the concrete airplane `W10` with a lever arm of exactly the binding rearward
limit (3 m), `add_max_fuel_within_limits` still appends a moment instead of
rejecting. -/
theorem C3_no_division_guard :
    (LeverArm.Meter 3).meter = W10.solver_cg_limit (.Meter 3) ∧
    (W10.add_max_fuel_within_limits "Fuel" (.Meter 3) .Avgas .Liter
        none).moments.length = W10.moments.length + 1 := by
  constructor
  · norm_num [LeverArm.meter, W10, Airplane.solver_cg_limit, CenterOfGravity.meter]
  · rw [add_max_fuel_eq]
    simp

/-- C5: when the last moment is fuel-typed, the landing totals equal the
totals of the airplane whose last moment's fuel volume has the trip
consumption (in liters) subtracted, every other moment unchanged. -/
theorem C5_landing_totals (a a' : Airplane) (h : a.spec_landing_adjusted = some a') :
    a.total_mass_landing = some a'.total_mass ∧
    a.total_mass_moment_landing = some a'.total_mass_moment := by
  cases hl : a.moments.getLast? with
  | none => simp [Airplane.spec_landing_adjusted, hl] at h
  | some lm =>
    obtain ⟨init, hinit⟩ : ∃ init, a.moments = init ++ [lm] :=
      ⟨a.moments.dropLast, (List.dropLast_append_getLast? lm hl).symm⟩
    cases hm : lm.mass with
    | Kilo k => simp [Airplane.spec_landing_adjusted, hl, hm] at h
    | Avgas v =>
      simp only [Airplane.spec_landing_adjusted, hl, hm, Option.some.injEq] at h
      subst h
      constructor
      · simp only [Airplane.total_mass_landing, hl, hm]
        simp only [Airplane.total_mass, hinit, hm, List.dropLast_concat,
          List.map_append, List.sum_append, List.map_cons, List.map_nil,
          List.sum_cons, List.sum_nil, Option.some.injEq, Mass.Kilo.injEq,
          Mass.kilo_Kilo, Mass.kilo_Avgas, Volume.to_liter_Liter]
        ring
      · simp only [Airplane.total_mass_moment_landing, hl, hm]
        simp only [Airplane.total_mass_moment, hinit, hm, List.dropLast_concat,
          List.map_append, List.sum_append, List.map_cons, List.map_nil,
          List.sum_cons, List.sum_nil, Option.some.injEq, MassMoment.KgM.injEq,
          Moment.total, MassMoment.kgm, Mass.kilo_Kilo, Mass.kilo_Avgas,
          Volume.to_liter_Liter]
        ring
    | Mogas v =>
      simp only [Airplane.spec_landing_adjusted, hl, hm, Option.some.injEq] at h
      subst h
      constructor
      · simp only [Airplane.total_mass_landing, hl, hm]
        simp only [Airplane.total_mass, hinit, hm, List.dropLast_concat,
          List.map_append, List.sum_append, List.map_cons, List.map_nil,
          List.sum_cons, List.sum_nil, Option.some.injEq, Mass.Kilo.injEq,
          Mass.kilo_Kilo, Mass.kilo_Mogas, Volume.to_liter_Liter]
        ring
      · simp only [Airplane.total_mass_moment_landing, hl, hm]
        simp only [Airplane.total_mass_moment, hinit, hm, List.dropLast_concat,
          List.map_append, List.sum_append, List.map_cons, List.map_nil,
          List.sum_cons, List.sum_nil, Option.some.injEq, MassMoment.KgM.injEq,
          Moment.total, MassMoment.kgm, Mass.kilo_Kilo, Mass.kilo_Mogas,
          Volume.to_liter_Liter]
        ring

/-- Witness for C5 at the concrete airplane `W5`: 17 L of trip fuel burned
from its 60 L Avgas load. -/
theorem C5_landing_totals_witness :
    W5.total_mass_landing = some W5adj.total_mass ∧
    W5.total_mass_moment_landing = some W5adj.total_mass_moment :=
  C5_landing_totals W5 W5adj
    (by simp [W5, W5adj, Airplane.spec_landing_adjusted, Volume.to_liter])

/-- C6: the landing recomputations signal the fatal error exactly when the
moment list is empty or the last moment's mass is not fuel-typed; on a
fuel-typed last moment they succeed. -/
theorem C6_landing_error_iff (a : Airplane) :
    (a.total_mass_landing = none ↔
      a.moments = [] ∨
        ∃ lm, a.moments.getLast? = some lm ∧ lm.mass.isFuel = false) ∧
    (a.total_mass_moment_landing = none ↔
      a.moments = [] ∨
        ∃ lm, a.moments.getLast? = some lm ∧ lm.mass.isFuel = false) := by
  cases hl : a.moments.getLast? with
  | none =>
    have he : a.moments = [] := List.getLast?_eq_none_iff.mp hl
    simp [Airplane.total_mass_landing, Airplane.total_mass_moment_landing, hl, he]
  | some lm =>
    have hne : a.moments ≠ [] := by
      intro he
      rw [he] at hl
      simp at hl
    cases hm : lm.mass with
    | Kilo k =>
      simp [Airplane.total_mass_landing, Airplane.total_mass_moment_landing,
        hl, hm, hne, Mass.isFuel]
    | Avgas v =>
      simp [Airplane.total_mass_landing, Airplane.total_mass_moment_landing,
        hl, hm, hne, Mass.isFuel]
    | Mogas v =>
      simp [Airplane.total_mass_landing, Airplane.total_mass_moment_landing,
        hl, hm, hne, Mass.isFuel]

/-- Witness for C4 at the concrete airplane `W1`. -/
theorem C4_within_limits_iff_witness : W1.within_limits = true :=
  (C4_within_limits_iff W1
      (by norm_num [W1, Airplane.total_mass, Mass.kilo])).mpr
    (by norm_num [W1, Airplane.total_mass, Airplane.total_mass_moment,
      Moment.total, Mass.kilo, MassMoment.kgm, LeverArm.meter,
      CenterOfGravity.meter])

/-- C7: with a volume cap, the appended fuel volume is the lesser (in liters)
of the CG/MTOW-solved volume and the cap, stored in the caller-requested unit
through the fixed liters-per-gallon conversion, and the unit choice does not
change the mass in kilograms. -/
theorem C7_volume_cap (a : Airplane) (n : String) (arm : LeverArm)
    (fuel : FuelType) (cap : Volume) :
    ((a.add_max_fuel_within_limits n arm fuel .Liter (some cap)).moments.getLast? =
        some (Moment.mk n arm (fuel.mass (.Liter
          (min (a.solver_clamped_mass arm / fuel.density) cap.to_liter))))) ∧
    ((a.add_max_fuel_within_limits n arm fuel .Gallon (some cap)).moments.getLast? =
        some (Moment.mk n arm (fuel.mass (.Gallon
          (min (a.solver_clamped_mass arm / fuel.density) cap.to_liter /
            LITERS_IN_GALLON))))) ∧
    (fuel.mass (.Gallon (min (a.solver_clamped_mass arm / fuel.density)
        cap.to_liter / LITERS_IN_GALLON))).kilo =
      (fuel.mass (.Liter (min (a.solver_clamped_mass arm / fuel.density)
        cap.to_liter))).kilo := by
  cases fuel <;>
  · refine ⟨?_, ?_, ?_⟩
    · rw [add_max_fuel_eq]
      simp only [List.getLast?_concat, Airplane.solver_moment, Mass.to_mogas,
        Mass.to_avgas, Mass.kilo_Kilo, limit_fuel_volume, Volume.to_liter_Liter,
        FuelType.mass, FuelType.density, Option.some.injEq, Moment.mk.injEq,
        Mass.Mogas.injEq, Mass.Avgas.injEq, Volume.Liter.injEq, true_and]
      rw [min_def]
      split_ifs <;> first | rfl | linarith
    · rw [add_max_fuel_eq]
      simp only [List.getLast?_concat, Airplane.solver_moment, Mass.to_mogas,
        Mass.to_avgas, Mass.kilo_Kilo, limit_fuel_volume, Volume.to_liter_Liter,
        Volume.to_gallon, FuelType.mass, FuelType.density, Option.some.injEq,
        Moment.mk.injEq, Mass.Mogas.injEq, Mass.Avgas.injEq, Volume.Gallon.injEq,
        true_and]
      rw [min_def]
      split_ifs <;> first | rfl | linarith
    · simp only [FuelType.mass, FuelType.density, Mass.kilo,
        div_mul_cancel₀ _ liters_in_gallon_ne_zero]

/-- C8: `total_mass` is the sum of every moment's kilograms, and
`total_mass_moment` the sum of every moment's kilograms times lever arm, and
both sums are invariant under permutation of the moment list. -/
theorem C8_totals_sums_perm (a : Airplane) (ms : List Moment)
    (h : a.moments.Perm ms) :
    a.total_mass.kilo = (a.moments.map fun m => m.mass.kilo).sum ∧
    a.total_mass_moment.kgm =
      (a.moments.map fun m => m.mass.kilo * m.lever_arm.meter).sum ∧
    ({ a with moments := ms } : Airplane).total_mass.kilo = a.total_mass.kilo ∧
    ({ a with moments := ms } : Airplane).total_mass_moment.kgm =
      a.total_mass_moment.kgm := by
  refine ⟨rfl, ?_, ?_, ?_⟩
  · simp [Airplane.total_mass_moment, Moment.total, MassMoment.kgm]
  · simp only [Airplane.total_mass, Mass.kilo_Kilo]
    exact ((h.map fun m => m.mass.kilo).sum_eq).symm
  · simp only [Airplane.total_mass_moment, MassMoment.kgm]
    exact ((h.map fun m => m.total.kgm).sum_eq).symm

/-- Witness for C8: swapping the two moments of `W8` keeps its total mass. -/
theorem C8_totals_sums_perm_witness :
    ({ W8 with moments := [M8b, M8a] } : Airplane).total_mass.kilo =
      W8.total_mass.kilo :=
  (C8_totals_sums_perm W8 [M8b, M8a] (List.Perm.swap M8b M8a [])).2.2.1

/-- C9: `within_limits` never reads `minimum_weight`: an airplane lighter than
the minimum weight still passes when the MTOW and both CG comparisons pass,
and replacing `minimum_weight` by anything leaves `within_limits` unchanged. -/
theorem C9_min_weight_ignored (a : Airplane)
    (hlow : a.total_mass.kilo < a.limits.minimum_weight.kilo)
    (hm : a.total_mass.kilo ≤ a.limits.mtow.kilo)
    (hf : a.limits.forward_cg_limit.meter ≤ a.center_of_gravity.meter)
    (hr : a.center_of_gravity.meter ≤ a.limits.rearward_cg_limit.meter) :
    a.within_limits = true ∧
    ∀ mw : Mass,
      ({ a with limits := { a.limits with minimum_weight := mw } } :
        Airplane).within_limits = a.within_limits := by
  constructor
  · simp only [Airplane.within_limits, Bool.and_eq_true, decide_eq_true_eq,
      ge_iff_le]
    exact ⟨⟨hm, hr⟩, hf⟩
  · intro mw
    rfl

/-- Witness for C9 at `W9`: its 10 kg total is below the 50 kg minimum weight
and it still passes. -/
theorem C9_min_weight_ignored_witness : W9.within_limits = true :=
  (C9_min_weight_ignored W9
      (by norm_num [W9, Airplane.total_mass, Mass.kilo])
      (by norm_num [W9, Airplane.total_mass, Mass.kilo])
      (by norm_num [W9, Airplane.total_mass, Airplane.total_mass_moment,
        Airplane.center_of_gravity, Moment.total, Mass.kilo, MassMoment.kgm,
        LeverArm.meter, CenterOfGravity.meter])
      (by norm_num [W9, Airplane.total_mass, Airplane.total_mass_moment,
        Airplane.center_of_gravity, Moment.total, Mass.kilo, MassMoment.kgm,
        LeverArm.meter, CenterOfGravity.meter])).1

/-- C10: `add_max_fuel_within_limits` never signals an error: it always
appends exactly one moment after the unchanged previous moments; and when the
unconstrained solve is negative and the MTOW clamp does not engage, the
appended moment carries a negative fuel volume and negative mass. -/
theorem C10_always_appends (a : Airplane) (n : String) (arm : LeverArm)
    (fuel : FuelType) (vt : VolumeType) (mv : Option Volume) :
    ((a.add_max_fuel_within_limits n arm fuel vt mv).moments =
        a.moments ++ [a.solver_moment n arm fuel vt mv]) ∧
    (a.solver_kg_max_mass arm < 0 →
      a.solver_kg_max_mass arm + a.total_mass.kilo < a.limits.mtow.kilo →
      (a.solver_moment n arm fuel vt mv).mass.kilo < 0 ∧
      ∃ v, (a.solver_moment n arm fuel vt mv).mass.fuelVolume = some v ∧
        v.to_liter < 0) := by
  constructor
  · rw [add_max_fuel_eq]
  · intro hneg hcl
    have hclamp : a.solver_clamped_mass arm = a.solver_kg_max_mass arm := by
      unfold Airplane.solver_clamped_mass
      exact if_neg (not_le.mpr hcl)
    cases fuel with
    | Avgas =>
      have hsrc : ((Volume.Liter (a.solver_clamped_mass arm /
          AVGAS_FUEL_DENSITY_KG_LITER)) : Volume).to_liter < 0 := by
        rw [Volume.to_liter_Liter, hclamp]
        exact div_neg_of_neg_of_pos hneg avgas_density_pos
      obtain ⟨w, hw, hle⟩ := limit_fuel_volume_avgas
        (.Liter (a.solver_clamped_mass arm / AVGAS_FUEL_DENSITY_KG_LITER)) vt mv
      have hmass : (a.solver_moment n arm .Avgas vt mv).mass = .Avgas w := by
        simp only [Airplane.solver_moment, Mass.to_avgas, Mass.kilo_Kilo]
        exact hw
      have hwneg : w.to_liter < 0 := lt_of_le_of_lt hle hsrc
      refine ⟨?_, w, ?_, hwneg⟩
      · rw [hmass, Mass.kilo_Avgas]
        exact mul_neg_of_neg_of_pos hwneg avgas_density_pos
      · rw [hmass]
        rfl
    | Mogas =>
      have hsrc : ((Volume.Liter (a.solver_clamped_mass arm /
          MOGAS_FUEL_DENSITY_KG_LITER)) : Volume).to_liter < 0 := by
        rw [Volume.to_liter_Liter, hclamp]
        exact div_neg_of_neg_of_pos hneg mogas_density_pos
      obtain ⟨w, hw, hle⟩ := limit_fuel_volume_mogas
        (.Liter (a.solver_clamped_mass arm / MOGAS_FUEL_DENSITY_KG_LITER)) vt mv
      have hmass : (a.solver_moment n arm .Mogas vt mv).mass = .Mogas w := by
        simp only [Airplane.solver_moment, Mass.to_mogas, Mass.kilo_Kilo]
        exact hw
      have hwneg : w.to_liter < 0 := lt_of_le_of_lt hle hsrc
      refine ⟨?_, w, ?_, hwneg⟩
      · rw [hmass, Mass.kilo_Mogas]
        exact mul_neg_of_neg_of_pos hwneg mogas_density_pos
      · rw [hmass]
        rfl

/-- Witness for C10 at `W10`, lever arm 3.5 m: the CG-solved mass is -20 kg,
the MTOW clamp does not engage, and a negative fuel volume is appended. -/
theorem C10_always_appends_witness :
    (W10.solver_moment "fuel" (.Meter (7/2)) .Avgas .Liter none).mass.kilo < 0 ∧
    ∃ v, (W10.solver_moment "fuel" (.Meter (7/2)) .Avgas .Liter none).mass.fuelVolume =
      some v ∧ v.to_liter < 0 :=
  (C10_always_appends W10 "fuel" (.Meter (7/2)) .Avgas .Liter none).2
    (by norm_num [W10, Airplane.solver_kg_max_mass, Airplane.solver_cg_limit,
      Airplane.total_mass, Airplane.total_mass_moment, Moment.total, Mass.kilo,
      MassMoment.kgm, LeverArm.meter, CenterOfGravity.meter])
    (by norm_num [W10, Airplane.solver_kg_max_mass, Airplane.solver_cg_limit,
      Airplane.total_mass, Airplane.total_mass_moment, Moment.total, Mass.kilo,
      MassMoment.kgm, LeverArm.meter, CenterOfGravity.meter])

end AirplaneRs
